import Mathlib

/-!
Verification of the block_blue content script (src/content/content.js).

The DOM is shallowly embedded as a tree of nodes; container elements
(tweets / user cells) carry their child subtrees together with the
processing markers the script stores on them.  Each function of the
script is translated into a Lean function over this embedding, and the
specification's claims are settled as theorems about those functions.
-/

namespace BlockBlue

/-- A DOM node: either a text node or an element with a tag name, an
attribute list, a resolved foreground colour (the parsed result of
`getComputedStyle(el).color`, `none` when the computed colour is not an
`rgb(r, g, b)` string) and a list of child nodes in document order. -/
inductive Node where
  | text (s : String)
  | elem (tag : String) (attrs : List (String × String)) (color : Option (Nat × Nat × Nat)) (children : List Node)
deriving Repr

/-- The `getAttribute`: first attribute with the given name, if any. -/
def getAttr (attrs : List (String × String)) (name : String) : Option String :=
  (attrs.find? (fun p => p.1 == name)).map (fun p => p.2)

/-- Tag name of a node (text nodes have none; the empty string). -/
def Node.tagOf : Node → String
  | .text _ => ""
  | .elem tag _ _ _ => tag

/-- Attribute list of a node. -/
def Node.attrsOf : Node → List (String × String)
  | .text _ => []
  | .elem _ attrs _ _ => attrs

/-- Child list of a node. -/
def Node.childrenOf : Node → List Node
  | .text _ => []
  | .elem _ _ _ cs => cs

/-- Whether the character list `n` occurs at the start of `h`. -/
def isPrefOf : List Char → List Char → Bool
  | [], _ => true
  | _ :: _, [] => false
  | a :: as, b :: bs => a == b && isPrefOf as bs

/-- Whether the character list `n` occurs contiguously anywhere in `h`
(JavaScript `String.prototype.includes`). -/
def hasSub (n : List Char) : List Char → Bool
  | [] => isPrefOf n []
  | c :: hs => isPrefOf n (c :: hs) || hasSub n hs

/-- Substring test on strings: `hay` contains `needle`. -/
def strIncludes (hay needle : String) : Bool :=
  hasSub needle.toList hay.toList

/-- The `String.prototype.toLowerCase` (ASCII range, character-wise). -/
def strToLower (s : String) : String :=
  String.mk (s.toList.map Char.toLower)

/-- The `String.prototype.trim`: strip whitespace from both ends. -/
def strTrim (s : String) : String :=
  String.mk (((s.toList.dropWhile Char.isWhitespace).reverse.dropWhile
    Char.isWhitespace).reverse)

/-- The multilingual aria-label keywords for the verified badge
(constant `VERIFIED_KEYWORDS`). -/
def VERIFIED_KEYWORDS : List String :=
  ["verified", "認証済み", "已验证", "已認證", "verifiziert", "vérifié",
   "verificado", "verificato", "인증"]

/-- Keywords indicating the logged-in user follows someone
(constant `FOLLOWING_KEYWORDS`). -/
def FOLLOWING_KEYWORDS : List String :=
  ["following", "フォロー中", "正在关注", "正在關注", "siguiendo",
   "suivi", "folge ich", "seguindo", "segui già", "팔로잉"]

/-- Badge colour tiers (constant `BADGE_TYPES`). -/
inductive BadgeType where
  | blue
  | gold
  | gray
deriving DecidableEq, Repr

/-- Number of `<path>` elements in a list of subtrees
(`svg.querySelectorAll('path').length` counts all descendants). -/
def countPathsList : List Node → Nat
  | [] => 0
  | .text _ :: rest => countPathsList rest
  | .elem tag _ _ cs :: rest =>
      (if tag == "path" then 1 else 0) + countPathsList cs + countPathsList rest

/-- Descendant `<path>` count of a node. -/
def Node.countPaths (n : Node) : Nat :=
  countPathsList n.childrenOf

/-- The `isVerifiedBadge(svg)`: aria-label keyword match as primary signal,
falling back to the structural 22×22-viewBox / ≥2-paths heuristic. -/
def isVerifiedBadge (n : Node) : Bool :=
  match n with
  | .text _ => false
  | .elem tag attrs _ cs =>
    if strToLower tag != "svg" then false
    else
      let label := strToLower ((getAttr attrs "aria-label").getD "")
      if label != "" && VERIFIED_KEYWORDS.any (fun kw => strIncludes label kw) then
        true
      else if getAttr attrs "viewBox" == some "0 0 22 22" && countPathsList cs ≥ 2 then
        true
      else
        false

/-- The `Math.abs(a - b)` for natural channel values. -/
def absDiff (a b : Nat) : Nat :=
  max a b - min a b

/-- The colour-bucketing core of `getBadgeColorType`, applied to the
parsed `rgb(r, g, b)` triple. -/
def classifyRgb (r g b : Nat) : Option BadgeType :=
  if 180 < b ∧ r < 80 then some .blue
  else if 180 < r ∧ 140 < g ∧ b < 80 then some .gold
  else if absDiff r g < 40 ∧ absDiff g b < 40 ∧ 70 < r ∧ r < 200 then some .gray
  else none

/-- The `getBadgeColorType(svg)`: read the resolved colour; `null` when the
computed colour does not parse as an `rgb(...)` triple, otherwise the
bucketed tier. -/
def getBadgeColorType (n : Node) : Option BadgeType :=
  match n with
  | .text _ => none
  | .elem _ _ color _ =>
    match color with
    | none => none
    | some (r, g, b) => classifyRgb r g b

/-- Whether an element is an anchor whose `href` contains `"/status/"`
(the CSS selector `a[href*="/status/"]` used by `svg.closest`). -/
def isStatusLink (tag : String) (attrs : List (String × String)) : Bool :=
  tag == "a" &&
    match getAttr attrs "href" with
    | some h => strIncludes h "/status/"
    | none => false

/-- The `element.querySelectorAll('svg')` in document order, each svg paired
with whether one of its ancestors (inside the container) is a
permalink-shaped anchor — the `svg.closest('a[href*="/status/"]')` test. -/
def collectSvgs (inLink : Bool) : List Node → List (Node × Bool)
  | [] => []
  | .text _ :: rest => collectSvgs inLink rest
  | .elem tag attrs color cs :: rest =>
      (if tag == "svg" then [(Node.elem tag attrs color cs, inLink)] else [])
        ++ collectSvgs (inLink || isStatusLink tag attrs) cs
        ++ collectSvgs inLink rest

/-- Whether a character belongs to the JavaScript class `[a-zA-Z0-9_]`. -/
def isHandleChar (c : Char) : Bool :=
  c.isAlpha || c.isDigit || c == '_'

/-- The regex `/^\/([a-zA-Z0-9_]{1,15})$/`: capture group 1 (original
case) when the whole string matches, else `none`. -/
def matchProfileRaw (path : String) : Option String :=
  match path.toList with
  | '/' :: rest =>
    if rest ≠ [] ∧ rest.length ≤ 15 ∧ rest.all isHandleChar then
      some (String.mk rest)
    else none
  | _ => none

/-- The `element.querySelectorAll('a[role="link"][href]')` in document
order: the attribute lists of matching anchors. -/
def collectLinks : List Node → List (List (String × String))
  | [] => []
  | .text _ :: rest => collectLinks rest
  | .elem tag attrs _ cs :: rest =>
      (if tag == "a" && getAttr attrs "role" == some "link"
          && (getAttr attrs "href").isSome
       then [attrs] else [])
        ++ collectLinks cs ++ collectLinks rest

/-- The loop body of `extractUsername`: first anchor whose `href`
matches the bare-profile pattern, lower-cased. -/
def loopLinks : List (List (String × String)) → Option String
  | [] => none
  | attrs :: rest =>
    match getAttr attrs "href" with
    | none => loopLinks rest
    | some href =>
      if href == "" then loopLinks rest
      else
        match matchProfileRaw href with
        | some u => some (strToLower u)
        | none => loopLinks rest

/-- A tweet / UserCell container: its child subtrees, inline padding,
the two processing markers, and the stashed-original fields that
`replaceWithPlaceholder` attaches for later restoration. -/
structure Container where
  children : List Node
  padding : String
  processed : Bool
  replaced : Bool
  blockBlueOriginal : Option (List Node)
  blockBlueOriginalPadding : Option String

/-- The `extractUsername(element)`: first `/handle` profile link inside the
container, lower-cased. -/
def extractUsername (c : Container) : Option String :=
  loopLinks (collectLinks c.children)

/-- Plugin settings (the `settings` global). -/
structure Settings where
  enabled : Bool
  hideBlue : Bool
  hideGold : Bool
  hideGray : Bool
deriving DecidableEq, Repr

/-- The decision-relevant mutable globals of the script: `settings`,
`whitelistSet`, `followedUsersSet` and `hiddenCount`.  Sets are
represented as duplicate-free insertion-ordered lists. -/
structure GState where
  settings : Settings
  whitelistSet : List String
  followedUsersSet : List String
  hiddenCount : Nat
deriving DecidableEq, Repr

/-- All svg descendants of a container paired with their
quoted-sub-card flag, in document order. -/
def svgsOf (c : Container) : List (Node × Bool) :=
  collectSvgs false c.children

/-- The badge-search loop of `getBlockBadgeType`: skip non-badges and
badges nested in a permalink-shaped anchor, classify the rest, and stop
at the first recognised tier. -/
def loopBadge : List (Node × Bool) → Option BadgeType
  | [] => none
  | (s, inL) :: rest =>
    if !isVerifiedBadge s then loopBadge rest
    else if inL then loopBadge rest
    else
      match getBadgeColorType s with
      | some t => some t
      | none => loopBadge rest

/-- The `getBlockBadgeType(element)`: the suppression decision — `none`
means "do not block", `some tier` means "hide, labelled with tier". -/
def getBlockBadgeType (σ : GState) (c : Container) : Option BadgeType :=
  if !σ.settings.enabled then none
  else
    match loopBadge (svgsOf c) with
    | none => none
    | some t =>
      if t = .blue ∧ !σ.settings.hideBlue then none
      else if t = .gold ∧ !σ.settings.hideGold then none
      else if t = .gray ∧ !σ.settings.hideGray then none
      else
        match extractUsername c with
        | some u =>
          if σ.whitelistSet.contains u then none
          else if σ.followedUsersSet.contains u then none
          else some t
        | none => some t

/-- The browser's i18n message lookup (`chrome.i18n.getMessage`) is an
external collaborator; modelled as an injective tagging of the key. -/
def i18nGetMessage (key : String) : String :=
  "i18n:" ++ key

/-- The `chrome.i18n.getMessage(key, [arg])` with one substitution. -/
def i18nGetMessage1 (key arg : String) : String :=
  "i18n:" ++ key ++ ":" ++ arg

/-- The string value of a badge tier (`BADGE_TYPES`). -/
def BadgeType.str : BadgeType → String
  | .blue => "blue"
  | .gold => "gold"
  | .gray => "gray"

/-- The `BADGE_LABELS`: tier → display label. -/
def BADGE_LABELS (t : BadgeType) : String :=
  match t with
  | .blue => i18nGetMessage "badgeBlue"
  | .gold => i18nGetMessage "badgeGold"
  | .gray => i18nGetMessage "badgeGray"

/-- The placeholder bar built by `replaceWithPlaceholder`: a div holding
the colour dot, the "blocked" text and the "show" link. -/
def placeholderBar (t : BadgeType) : Node :=
  Node.elem "div" [("class", "block-blue-placeholder")] none
    [ Node.elem "span"
        [("class", "block-blue-placeholder-dot block-blue-placeholder-dot--" ++ t.str)]
        none []
    , Node.elem "span" [] none
        [Node.text (i18nGetMessage1 "placeholderBlocked" (BADGE_LABELS t))]
    , Node.elem "span" [("class", "block-blue-placeholder-show")] none
        [Node.text (i18nGetMessage "placeholderShow")] ]

/-- The `replaceWithPlaceholder(element, badgeType)`: stash the children and
the inline padding, set the replaced marker, and show the bar. -/
def replaceWithPlaceholder (c : Container) (t : BadgeType) : Container :=
  { children := [placeholderBar t],
    padding := c.padding,
    processed := c.processed,
    replaced := true,
    blockBlueOriginal := some c.children,
    blockBlueOriginalPadding := some c.padding }

/-- The `restoreElement(element)`: no-op without stashed content, otherwise
reattach the stash, clear the replaced marker (the processed marker is
kept), reinstate the saved padding and drop the stash fields. -/
def restoreElement (c : Container) : Container :=
  match c.blockBlueOriginal with
  | none => c
  | some orig =>
    { children := orig,
      padding := c.blockBlueOriginalPadding.getD "",
      processed := c.processed,
      replaced := false,
      blockBlueOriginal := none,
      blockBlueOriginalPadding := none }

/-- The `processElement(element)`: skip if already processed, else mark
processed, decide, and on a positive decision hide and bump the count. -/
def processElement (σ : GState) (c : Container) : GState × Container :=
  if c.processed then (σ, c)
  else
    let c1 := { c with processed := true }
    match getBlockBadgeType σ c1 with
    | some t =>
      ({ σ with hiddenCount := σ.hiddenCount + 1 }, replaceWithPlaceholder c1 t)
    | none => (σ, c1)

/-- The `processTree` restricted to an explicit document-order list of
matching containers: fold `processElement` over it, threading state. -/
def processAll (σ : GState) : List Container → GState × List Container
  | [] => (σ, [])
  | c :: rest =>
    let p := processElement σ c
    let q := processAll p.1 rest
    (q.1, p.2 :: q.2)

/-- The follow-tracker globals: `followedUsersSet` (a duplicate-free
insertion-ordered list) and the pending debounce timer delay. -/
structure FollowState where
  followedUsersSet : List String
  followedSaveTimer : Option Nat
deriving DecidableEq, Repr

/-- The `markAsFollowed(username)`: insert if non-empty and absent and
schedule the debounced 2-second persist (`debouncedSaveFollowedUsers`
replaces any pending timer with a fresh 2000 ms one). -/
def markAsFollowed (fs : FollowState) (username : String) : FollowState :=
  if username == "" || fs.followedUsersSet.contains username then fs
  else
    { followedUsersSet := fs.followedUsersSet ++ [username],
      followedSaveTimer := some 2000 }

/-- A "Following"-style button found on the page: its text content, its
aria-label, and the subtree of its `closest(...)` ancestor container. -/
structure FollowButton where
  text : String
  ariaLabel : String
  closestContainer : Option (List Node)

/-- The follow-state signals the tracker queries from the page DOM. -/
structure PageDom where
  pathname : String
  selectedTabTexts : List String
  tweets : List (List Node)
  testIds : List String
  followButtons : List FollowButton

/-- The `extractUsername` applied to a raw child list (the tweet subtree or
the `closest` ancestor of a follow button). -/
def extractUsernameL (ns : List Node) : Option String :=
  loopLinks (collectLinks ns)

/-- The `isOnFollowingTab()`: cached; on a miss, false off the home page,
else whether any selected tab's text contains a following keyword. -/
def isOnFollowingTab (cache : Option Bool) (dom : PageDom) : Bool × Option Bool :=
  match cache with
  | some v => (v, some v)
  | none =>
    if !(dom.pathname == "/" || dom.pathname == "/home") then (false, some false)
    else
      let v := dom.selectedTabTexts.any (fun t =>
        FOLLOWING_KEYWORDS.any (fun kw => strIncludes (strToLower (strTrim t)) (strToLower kw)))
      (v, some v)

/-- Whether `n` occurs at the end of `h`. -/
def isSufOf (n h : List Char) : Bool :=
  isPrefOf n.reverse h.reverse

/-- The selector `[data-testid$="-unfollow"]` combined with the regex
`/^(.+)-unfollow$/`: capture group 1 when the testid has a non-empty
stem before the suffix. -/
def matchUnfollowTestId (tid : String) : Option String :=
  let t := tid.toList
  let suf := "-unfollow".toList
  if isSufOf suf t && decide (suf.length < t.length) then
    some (String.mk (t.take (t.length - suf.length)))
  else none

/-- Signal 1 of `scanPageForFollowedUsers`: on the Following tab every
tweet author is followed. -/
def scanSignal1 (dom : PageDom) (onTab : Bool) (fs : FollowState) : FollowState :=
  if onTab then
    dom.tweets.foldl (fun a tw =>
      match extractUsernameL tw with
      | some u => markAsFollowed a u
      | none => a) fs
  else fs

/-- Signal 2a of `scanPageForFollowedUsers`: every
`[data-testid$="-unfollow"]` control names a followed account. -/
def scanSignal2a (dom : PageDom) (fs : FollowState) : FollowState :=
  dom.testIds.foldl (fun a tid =>
    match matchUnfollowTestId tid with
    | some name => markAsFollowed a (strToLower name)
    | none => a) fs

/-- Signal 2b of `scanPageForFollowedUsers`: buttons whose text equals
or whose aria-label contains a following keyword, with the identity
recovered from the `closest` ancestor container. -/
def scanSignal2b (dom : PageDom) (fs : FollowState) : FollowState :=
  dom.followButtons.foldl (fun a btn =>
    let text := strToLower (strTrim btn.text)
    let aria := strToLower btn.ariaLabel
    let isF := FOLLOWING_KEYWORDS.any (fun kw =>
      text == strToLower kw || strIncludes aria (strToLower kw))
    if !isF then a
    else
      match btn.closestContainer with
      | none => a
      | some cont =>
        match extractUsernameL cont with
        | some u => markAsFollowed a u
        | none => a) fs

/-- Signal 3 of `scanPageForFollowedUsers`: on a bare profile path an
unfollow-capable control scoped to that profile marks it followed. -/
def scanSignal3 (dom : PageDom) (fs : FollowState) : FollowState :=
  match matchProfileRaw dom.pathname with
  | some raw =>
    let user := strToLower raw
    if dom.testIds.contains (raw ++ "-unfollow")
        || dom.testIds.contains (user ++ "-unfollow") then
      markAsFollowed fs user
    else fs
  | none => fs

/-- The `scanPageForFollowedUsers()`: union the identities found by the
three follow signals into the cache, returning the updated tracker
state and the refreshed Following-tab cache. -/
def scanPageForFollowedUsers (dom : PageDom) (fs : FollowState) (cache : Option Bool) :
    FollowState × Option Bool :=
  let onTab := isOnFollowingTab cache dom
  (scanSignal3 dom (scanSignal2b dom (scanSignal2a dom (scanSignal1 dom onTab.1 fs))),
   onTab.2)

/-- The full mutable global state of the content script. -/
structure AppState where
  settings : Settings
  whitelistSet : List String
  followedUsersSet : List String
  followedSaveTimer : Option Nat
  hiddenCount : Nat
  saveTimer : Option Nat
  observerOn : Bool
  tabCache : Option Bool
  containers : List Container

/-- The decision-relevant projection of the global state. -/
def AppState.gs (s : AppState) : GState :=
  { settings := s.settings, whitelistSet := s.whitelistSet,
    followedUsersSet := s.followedUsersSet, hiddenCount := s.hiddenCount }

/-- The follow-tracker projection of the global state. -/
def AppState.fsOf (s : AppState) : FollowState :=
  { followedUsersSet := s.followedUsersSet,
    followedSaveTimer := s.followedSaveTimer }

/-- The first half of `rescanAll`, up to and including the
hidden-count reset: invalidate the tab cache, re-derive follow state,
restore every replaced container, clear every processed marker, and
zero the count. -/
def rescanPhase1 (dom : PageDom) (s : AppState) : AppState :=
  let scan := scanPageForFollowedUsers dom s.fsOf none
  let cs1 := s.containers.map (fun c => if c.replaced then restoreElement c else c)
  let cs2 := cs1.map (fun c => if c.processed then { c with processed := false } else c)
  { s with
    tabCache := scan.2,
    followedUsersSet := scan.1.followedUsersSet,
    followedSaveTimer := scan.1.followedSaveTimer,
    containers := cs2,
    hiddenCount := 0 }

/-- The `rescanAll()`: phase 1, then — only when suppression is enabled —
re-walk the whole document and (re)start the observer; when disabled,
tear the observer down.  Either way, schedule the count persist. -/
def rescanAll (dom : PageDom) (s : AppState) : AppState :=
  let s1 := rescanPhase1 dom s
  if s1.settings.enabled then
    let w := processAll s1.gs s1.containers
    { s1 with containers := w.2, hiddenCount := w.1.hiddenCount,
              observerOn := true, saveTimer := some 1000 }
  else
    { s1 with observerOn := false, saveTimer := some 1000 }

/-- The `handleMutations(mutations)`: bail out when disabled; else refresh
follow state, walk only the added subtrees (here: the added containers,
which join the document), and schedule the count persist. -/
def handleMutations (dom : PageDom) (added : List Container) (s : AppState) : AppState :=
  if !s.settings.enabled then s
  else
    let scan := scanPageForFollowedUsers dom s.fsOf s.tabCache
    let s1 := { s with followedUsersSet := scan.1.followedUsersSet,
                       followedSaveTimer := scan.1.followedSaveTimer,
                       tabCache := scan.2 }
    let w := processAll s1.gs added
    { s1 with containers := s1.containers ++ w.2,
              hiddenCount := w.1.hiddenCount,
              saveTimer := some 1000 }

/-- The result object of `chrome.storage.sync.get(DEFAULT_SETTINGS)`. -/
structure SyncResult where
  enabled : Bool
  hideBlue : Bool
  hideGold : Bool
  hideGray : Bool
  whitelist : List String
  hiddenCount : Nat

/-- The `Set.prototype.add`: append if absent. -/
def addIfAbsent (l : List String) (u : String) : List String :=
  if l.contains u then l else l ++ [u]

/-- The `loadSettings()`: refresh settings, rebuild the whitelist set from
the lower-cased stored list, take the stored count, and merge the
persisted followed users into the cache. -/
def loadSettings (res : SyncResult) (localFollowed : List String) (s : AppState) : AppState :=
  { s with
    settings := { enabled := res.enabled, hideBlue := res.hideBlue,
                  hideGold := res.hideGold, hideGray := res.hideGray },
    whitelistSet := res.whitelist.foldl (fun acc u => addIfAbsent acc (strToLower u)) [],
    hiddenCount := res.hiddenCount,
    followedUsersSet := localFollowed.foldl addIfAbsent s.followedUsersSet }

/-- The externally-triggered operations of the script: an individual
container scan (`processElement` via `processTree`), a placeholder
click (`restoreElement`), a mutation batch (`handleMutations`), a full
rescan (`rescanAll`) and a settings reload (`loadSettings`). -/
inductive Op where
  | processEl (i : Nat)
  | restoreClick (i : Nat)
  | mutations (dom : PageDom) (added : List Container)
  | rescan (dom : PageDom)
  | load (res : SyncResult) (localFollowed : List String)

/-- One step of the system. -/
def step (s : AppState) : Op → AppState
  | .processEl i =>
    match s.containers[i]? with
    | none => s
    | some c =>
      let p := processElement s.gs c
      { s with containers := s.containers.set i p.2, hiddenCount := p.1.hiddenCount }
  | .restoreClick i =>
    match s.containers[i]? with
    | none => s
    | some c => { s with containers := s.containers.set i (restoreElement c) }
  | .mutations dom added => handleMutations dom added s
  | .rescan dom => rescanAll dom s
  | .load res lf => loadSettings res lf s

/-- A container respecting the marker invariant: when replaced it is
also processed and holds its stashed original content. -/
def Container.ok (c : Container) : Bool :=
  !c.replaced || (c.processed && c.blockBlueOriginal.isSome)

/-- The page-wide marker invariant. -/
def invB (s : AppState) : Bool :=
  s.containers.all Container.ok

/-- Containers arriving through a mutation batch are part of the page's
own DOM and already satisfy the marker invariant (freshly rendered
nodes carry no markers at all). -/
def Op.okB : Op → Bool
  | .mutations _ added => added.all Container.ok
  | _ => true

/-- The per-svg step of the badge-search loop, written declaratively:
`none` for skipped svgs (not a badge, or nested in a permalink-shaped
anchor), otherwise the classified tier. -/
def qualifiesTier (p : Node × Bool) : Option BadgeType :=
  if isVerifiedBadge p.1 && !p.2 then getBadgeColorType p.1 else none

/-- The `getBlockBadgeType` with the state and the element threaded through
explicitly, making each exit path's (non-)effect visible: every branch
hands back the globals and the container it received. -/
def getBlockBadgeTypeS (σ : GState) (c : Container) :
    Option BadgeType × GState × Container :=
  if !σ.settings.enabled then (none, σ, c)
  else
    match loopBadge (svgsOf c) with
    | none => (none, σ, c)
    | some t =>
      if t = .blue ∧ !σ.settings.hideBlue then (none, σ, c)
      else if t = .gold ∧ !σ.settings.hideGold then (none, σ, c)
      else if t = .gray ∧ !σ.settings.hideGray then (none, σ, c)
      else
        match extractUsername c with
        | some u =>
          if σ.whitelistSet.contains u then (none, σ, c)
          else if σ.followedUsersSet.contains u then (none, σ, c)
          else (some t, σ, c)
        | none => (some t, σ, c)

/-! Concrete fixtures used by the witness theorems. -/

/-- An empty, unmarked container. -/
def cEmpty : Container :=
  ⟨[], "", false, false, none, none⟩

/-- A container holding a blue verified badge and a profile link. -/
def cBadgeAlice : Container :=
  ⟨[Node.elem "svg" [("viewBox", "0 0 22 22")] (some (29, 155, 240))
      [Node.elem "path" [] none [], Node.elem "path" [] none []],
    Node.elem "a" [("role", "link"), ("href", "/Alice")] none []],
   "", false, false, none, none⟩

/-- Default-settings globals with an empty whitelist and follow cache. -/
def gsOn : GState :=
  ⟨⟨true, true, false, false⟩, [], [], 0⟩

/-- Globals with suppression disabled. -/
def gsOff : GState :=
  ⟨⟨false, true, false, false⟩, [], [], 0⟩

/-- Globals whose whitelist holds `alice`. -/
def gsWl : GState :=
  ⟨⟨true, true, false, false⟩, ["alice"], [], 0⟩

/-- An initial app state with no containers. -/
def appEmpty : AppState :=
  ⟨⟨true, true, false, false⟩, [], [], none, 0, none, false, none, []⟩

/-- An app state holding one hidden (replaced) container. -/
def appOne : AppState :=
  ⟨⟨true, true, false, false⟩, [], [], none, 1, none, true, none,
   [⟨[placeholderBar .blue], "", true, true, some cBadgeAlice.children, some ""⟩]⟩

/-- A page DOM exposing no follow signals. -/
def domEmpty : PageDom :=
  ⟨"", [], [], [], []⟩

/-- An empty follow-tracker state. -/
def fsEmpty : FollowState :=
  ⟨[], none⟩

/-! ## Theorems -/

/-- C3 counterexample.  At `rgb(100,139,178)` the code returns Gray even
though `|r−b| = 78 ≥ 40`, and at `rgb(70,70,70)` the code returns no
tier even though all pairwise differences are `0 < 40` and `r = 70`
lies in the closed interval `[70,200]`; so the claimed gray bucket
("all three channels differ pairwise by < 40, `r ∈ [70,200]` closed")
is not the code's. -/
theorem classifyRgb_gray_claim_counterexample :
    (classifyRgb 100 139 178 = some BadgeType.gray
      ∧ ¬(absDiff 100 139 < 40 ∧ absDiff 139 178 < 40 ∧ absDiff 100 178 < 40
            ∧ 70 ≤ 100 ∧ 100 ≤ 200))
    ∧ (classifyRgb 70 70 70 = none
      ∧ absDiff 70 70 < 40 ∧ absDiff 70 70 < 40 ∧ absDiff 70 70 < 40
            ∧ 70 ≤ 70 ∧ 70 ≤ 200) := by
  decide

/-- C3 (amended): `classifyRgb` returns Blue iff `b > 180 ∧ r < 80`;
Gold iff `r > 180 ∧ g > 140 ∧ b < 80`; Gray iff `|r−g| < 40 ∧ |g−b| < 40`
(no direct constraint between `r` and `b`) and `r` lies in the open
interval `(70,200)`; and none exactly when no bucket matches. -/
theorem classifyRgb_buckets (r g b : Nat) :
    (classifyRgb r g b = some BadgeType.blue ↔ 180 < b ∧ r < 80)
    ∧ (classifyRgb r g b = some BadgeType.gold ↔ 180 < r ∧ 140 < g ∧ b < 80)
    ∧ (classifyRgb r g b = some BadgeType.gray ↔
        absDiff r g < 40 ∧ absDiff g b < 40 ∧ 70 < r ∧ r < 200)
    ∧ (classifyRgb r g b = none ↔
        ¬(180 < b ∧ r < 80) ∧ ¬(180 < r ∧ 140 < g ∧ b < 80)
          ∧ ¬(absDiff r g < 40 ∧ absDiff g b < 40 ∧ 70 < r ∧ r < 200)) := by
  unfold classifyRgb
  split_ifs with h1 h2 h3 <;>
    simp only [absDiff] at * <;>
    refine ⟨?_, ?_, ?_, ?_⟩ <;> simp <;> omega

/-- No verified keyword occurs in the empty label. -/
lemma any_keyword_empty_false :
    (VERIFIED_KEYWORDS.any fun kw => strIncludes "" kw) = false := by
  decide

/-- C8: `isVerifiedBadge` holds exactly when the element is an svg
whose lower-cased accessible label contains one of the multilingual
verified keywords, or else has the `0 0 22 22` viewBox and at least two
`path` descendants.  (The code's explicit non-empty-label guard is
redundant: no keyword occurs in the empty label.) -/
theorem isVerifiedBadge_characterization (n : Node) :
    isVerifiedBadge n = true ↔
      strToLower n.tagOf = "svg"
      ∧ ((∃ kw ∈ VERIFIED_KEYWORDS,
            strIncludes (strToLower ((getAttr n.attrsOf "aria-label").getD "")) kw = true)
          ∨ (getAttr n.attrsOf "viewBox" = some "0 0 22 22"
              ∧ 2 ≤ countPathsList n.childrenOf)) := by
  cases n with
  | text s =>
    simp only [isVerifiedBadge, Node.tagOf, Node.attrsOf, Node.childrenOf]
    constructor
    · intro h; exact absurd h (by simp)
    · rintro ⟨h, -⟩; exact absurd h (by decide)
  | elem tag attrs color cs =>
    simp only [isVerifiedBadge, Node.tagOf, Node.attrsOf, Node.childrenOf]
    by_cases htag : strToLower tag = "svg"
    · simp only [htag, bne_self_eq_false, Bool.false_eq_true, if_false]
      by_cases hlab : strToLower ((getAttr attrs "aria-label").getD "") = ""
      · rw [hlab]
        have hno : ¬ ∃ kw ∈ VERIFIED_KEYWORDS, strIncludes "" kw = true := by
          rw [← List.any_eq_true]
          simp [any_keyword_empty_false]
        simp [any_keyword_empty_false, hno, beq_iff_eq]
      · have hne : (strToLower ((getAttr attrs "aria-label").getD "") != "") = true := by
          simpa using hlab
        simp [hne, List.any_eq_true, beq_iff_eq]
    · have hne : (strToLower tag != "svg") = true := by simpa using htag
      simp [hne, htag]

/-- The badge-search loop is the first-match search over the svg list
with skipped svgs mapped to `none`. -/
lemma loopBadge_eq_findSome (l : List (Node × Bool)) :
    loopBadge l = l.findSome? qualifiesTier := by
  induction l with
  | nil => rfl
  | cons p rest ih =>
    obtain ⟨s, inL⟩ := p
    rw [List.findSome?_cons]
    have hq : qualifiesTier (s, inL)
        = if (isVerifiedBadge s && !inL) = true then getBadgeColorType s else none := rfl
    rw [hq]
    simp only [loopBadge]
    cases hb : isVerifiedBadge s
    · simp [hb, ih]
    · cases inL
      · cases hg : getBadgeColorType s <;> simp [hb, hg, ih]
      · simp [hb, ih]

/-- C1: the decision enumerates the container's svg elements in
document order and takes the first that is a verified badge, is not
nested in a permalink-shaped anchor, and whose colour classifies — a
first-match search (`List.findSome?`) over the document-order svg list
with every skipped svg yielding `none`; any tier returned by the loop
comes from such a qualifying svg, and when the search yields no tier
the whole decision is `none`. -/
theorem getBlockBadgeType_first_match (σ : GState) (c : Container) :
    loopBadge (svgsOf c) = (svgsOf c).findSome? qualifiesTier
    ∧ (∀ t, loopBadge (svgsOf c) = some t →
        ∃ p ∈ svgsOf c, isVerifiedBadge p.1 = true ∧ p.2 = false
          ∧ getBadgeColorType p.1 = some t)
    ∧ ((svgsOf c).findSome? qualifiesTier = none → getBlockBadgeType σ c = none) := by
  refine ⟨loopBadge_eq_findSome _, ?_, ?_⟩
  · intro t ht
    rw [loopBadge_eq_findSome] at ht
    obtain ⟨p, hp, hq⟩ := List.exists_of_findSome?_eq_some ht
    refine ⟨p, hp, ?_⟩
    unfold qualifiesTier at hq
    by_cases hb : (isVerifiedBadge p.1 && !p.2) = true
    · rw [if_pos hb] at hq
      simp only [Bool.and_eq_true, Bool.not_eq_true'] at hb
      exact ⟨hb.1, hb.2, hq⟩
    · rw [if_neg hb] at hq
      exact absurd hq (by simp)
  · intro h
    unfold getBlockBadgeType
    rw [loopBadge_eq_findSome, h]
    split <;> rfl

/-- C1 witness: on a container with no svg at all the search is empty
and the decision is `none`. -/
theorem getBlockBadgeType_first_match_witness :
    loopBadge (svgsOf cEmpty) = (svgsOf cEmpty).findSome? qualifiesTier
    ∧ getBlockBadgeType gsOn cEmpty = none :=
  ⟨(getBlockBadgeType_first_match gsOn cEmpty).1,
   (getBlockBadgeType_first_match gsOn cEmpty).2.2
     (by simp [svgsOf, cEmpty, collectSvgs])⟩

/-- C9: with suppression globally disabled the decision is `none` for
every container and every whitelist / follow-cache state. -/
theorem getBlockBadgeType_disabled (σ : GState) (c : Container)
    (h : σ.settings.enabled = false) :
    getBlockBadgeType σ c = none := by
  unfold getBlockBadgeType
  rw [h]
  rfl

/-- C9 witness: the disabled decision on a container that does hold a
hideable blue badge. -/
theorem getBlockBadgeType_disabled_witness :
    gsOff.settings.enabled = false ∧ getBlockBadgeType gsOff cBadgeAlice = none :=
  ⟨rfl, getBlockBadgeType_disabled gsOff cBadgeAlice rfl⟩

/-- C2: whenever the container's extracted identity is on the manual
whitelist or in the followed-users cache, the decision is `none` — no
matter which tier the badge search found and no matter how the
per-tier toggles are set. -/
theorem getBlockBadgeType_whitelist (σ : GState) (c : Container) (u : String)
    (hu : extractUsername c = some u)
    (hw : σ.whitelistSet.contains u = true ∨ σ.followedUsersSet.contains u = true) :
    getBlockBadgeType σ c = none := by
  unfold getBlockBadgeType
  cases he : σ.settings.enabled
  · rfl
  · simp only [he, Bool.not_true, Bool.false_eq_true, if_false]
    cases hL : loopBadge (svgsOf c) with
    | none => rfl
    | some t =>
      simp only []
      by_cases h1 : t = BadgeType.blue ∧ (!σ.settings.hideBlue) = true
      · rw [if_pos h1]
      · rw [if_neg h1]
        by_cases h2 : t = BadgeType.gold ∧ (!σ.settings.hideGold) = true
        · rw [if_pos h2]
        · rw [if_neg h2]
          by_cases h3 : t = BadgeType.gray ∧ (!σ.settings.hideGray) = true
          · rw [if_pos h3]
          · rw [if_neg h3]
            simp only [hu]
            rcases hw with hw | hw
            · rw [if_pos hw]
            · by_cases hwl : σ.whitelistSet.contains u = true
              · rw [if_pos hwl]
              · rw [if_neg hwl, if_pos hw]

/-- C2 witness: the blue-badged container authored by `alice` is not
hidden when `alice` is whitelisted, although blue badges are hidden by
the toggles. -/
theorem getBlockBadgeType_whitelist_witness :
    extractUsername cBadgeAlice = some "alice"
    ∧ getBlockBadgeType gsWl cBadgeAlice = none :=
  ⟨by simp +decide [extractUsername, cBadgeAlice, collectLinks, loopLinks, getAttr,
      matchProfileRaw, strToLower],
   getBlockBadgeType_whitelist gsWl cBadgeAlice "alice"
     (by simp +decide [extractUsername, cBadgeAlice, collectLinks, loopLinks, getAttr,
        matchProfileRaw, strToLower])
     (Or.inl (by decide))⟩

/-- C5: hiding a container and then restoring it reproduces the
pre-hide snapshot — the same children in the same order and the saved
padding — with the replaced marker cleared, the stash fields discarded
and the processed marker untouched. -/
theorem hide_restore_round_trip (c : Container) (t : BadgeType) :
    (restoreElement (replaceWithPlaceholder c t)).children = c.children
    ∧ (restoreElement (replaceWithPlaceholder c t)).padding = c.padding
    ∧ (restoreElement (replaceWithPlaceholder c t)).replaced = false
    ∧ (restoreElement (replaceWithPlaceholder c t)).blockBlueOriginal = none
    ∧ (restoreElement (replaceWithPlaceholder c t)).blockBlueOriginalPadding = none
    ∧ (restoreElement (replaceWithPlaceholder c t)).processed = c.processed := by
  unfold replaceWithPlaceholder restoreElement
  simp

/-- C10: the decision is read-only.  The state-instrumented translation
of `getBlockBadgeType` returns the globals and the container exactly as
it received them on every exit path, agreeing with the pure decision;
the marker/count mutations happen in `processElement`, which leaves the
settings, the whitelist and the follow cache unchanged and touches only
the hidden-count (and the container's markers). -/
theorem getBlockBadgeType_read_only (σ : GState) (c : Container) :
    getBlockBadgeTypeS σ c = (getBlockBadgeType σ c, σ, c)
    ∧ (processElement σ c).1.settings = σ.settings
    ∧ (processElement σ c).1.whitelistSet = σ.whitelistSet
    ∧ (processElement σ c).1.followedUsersSet = σ.followedUsersSet := by
  constructor
  · unfold getBlockBadgeTypeS getBlockBadgeType
    cases σ.settings.enabled
    · rfl
    · simp only [Bool.not_true, Bool.false_eq_true, if_false]
      cases loopBadge (svgsOf c) with
      | none => rfl
      | some t =>
        simp only []
        by_cases h1 : t = BadgeType.blue ∧ (!σ.settings.hideBlue) = true
        · rw [if_pos h1, if_pos h1]
        · rw [if_neg h1, if_neg h1]
          by_cases h2 : t = BadgeType.gold ∧ (!σ.settings.hideGold) = true
          · rw [if_pos h2, if_pos h2]
          · rw [if_neg h2, if_neg h2]
            by_cases h3 : t = BadgeType.gray ∧ (!σ.settings.hideGray) = true
            · rw [if_pos h3, if_pos h3]
            · rw [if_neg h3, if_neg h3]
              cases extractUsername c with
              | none => rfl
              | some u =>
                simp only []
                by_cases hwl : σ.whitelistSet.contains u = true
                · rw [if_pos hwl, if_pos hwl]
                · rw [if_neg hwl, if_neg hwl]
                  by_cases hfo : σ.followedUsersSet.contains u = true
                  · rw [if_pos hfo, if_pos hfo]
                  · rw [if_neg hfo, if_neg hfo]
  · unfold processElement
    cases c.processed
    · simp only [Bool.false_eq_true, if_false]
      cases getBlockBadgeType σ { c with processed := true } <;> exact ⟨rfl, rfl, rfl⟩
    · exact ⟨rfl, rfl, rfl⟩

/-- An already-processed container is skipped unchanged. -/
lemma processElement_processed (σ : GState) (c : Container) (h : c.processed = true) :
    processElement σ c = (σ, c) := by
  unfold processElement
  rw [if_pos h]

/-- The `processElement` preserves the per-container marker invariant. -/
lemma processElement_ok (σ : GState) (c : Container) (h : Container.ok c = true) :
    Container.ok (processElement σ c).2 = true := by
  unfold processElement
  cases hp : c.processed
  · simp only [Bool.false_eq_true, if_false]
    cases hb : getBlockBadgeType σ { c with processed := true } with
    | none =>
      unfold Container.ok at h ⊢
      simp only [hp, Bool.false_and, Bool.or_false] at h
      simp [h]
    | some t =>
      unfold Container.ok replaceWithPlaceholder
      simp
  · rw [if_pos rfl]
    exact h

/-- The `processAll` preserves the page-wide marker invariant. -/
lemma processAll_ok (σ : GState) (cs : List Container)
    (h : cs.all Container.ok = true) :
    (processAll σ cs).2.all Container.ok = true := by
  induction cs generalizing σ with
  | nil => simp [processAll]
  | cons c rest ih =>
    simp only [List.all_cons, Bool.and_eq_true] at h
    simp only [processAll, List.all_cons, Bool.and_eq_true]
    exact ⟨processElement_ok _ _ h.1, ih _ h.2⟩

/-- The `restoreElement` preserves the per-container marker invariant. -/
lemma restoreElement_ok (c : Container) (h : Container.ok c = true) :
    Container.ok (restoreElement c) = true := by
  unfold restoreElement
  cases ho : c.blockBlueOriginal with
  | none => exact h
  | some orig =>
    unfold Container.ok
    simp

/-- The containers left by phase 1 of a rescan. -/
lemma rescanPhase1_containers_eq (dom : PageDom) (s : AppState) :
    (rescanPhase1 dom s).containers
      = (s.containers.map (fun c => if c.replaced then restoreElement c else c)).map
          (fun c => if c.processed then { c with processed := false } else c) := rfl

/-- After phase 1 of a rescan every container is unmarked (and hence
still satisfies the marker invariant). -/
lemma rescanPhase1_markers (dom : PageDom) (s : AppState) (h : invB s = true) :
    ∀ c ∈ (rescanPhase1 dom s).containers,
      c.processed = false ∧ c.replaced = false ∧ Container.ok c = true := by
  intro c hc
  rw [rescanPhase1_containers_eq] at hc
  rw [List.mem_map] at hc
  obtain ⟨c1, hc1, rfl⟩ := hc
  rw [List.mem_map] at hc1
  obtain ⟨c0, hc0, rfl⟩ := hc1
  unfold invB at h
  rw [List.all_eq_true] at h
  have h0 := h c0 hc0
  obtain ⟨ch, pad, pr, rep, orig, opad⟩ := c0
  cases pr <;> cases rep <;> cases orig <;>
    simp_all [Container.ok, restoreElement]

/-- Phase 1 of a rescan restores the page-wide marker invariant. -/
lemma invB_rescanPhase1 (dom : PageDom) (s : AppState) (h : invB s = true) :
    invB (rescanPhase1 dom s) = true := by
  unfold invB
  rw [List.all_eq_true]
  intro c hc
  exact (rescanPhase1_markers dom s h c hc).2.2

/-- C4: the marker invariant — a replaced container is processed (and
still owns its stash) — is preserved by every operation of the system;
an already-processed container is never re-evaluated (so never hidden a
second time without an intervening restore, since replaced implies
processed); and a mutation-driven incremental scan leaves every
pre-existing container untouched, walking only the added ones. -/
theorem markers_invariant (s : AppState) (op : Op)
    (h1 : invB s = true) (h2 : op.okB = true) :
    invB (step s op) = true
    ∧ (∀ (σ : GState) (c : Container), c.processed = true → processElement σ c = (σ, c))
    ∧ (∀ (dom : PageDom) (added : List Container),
        (handleMutations dom added s).containers.take s.containers.length
          = s.containers) := by
  refine ⟨?_, fun σ c h => processElement_processed σ c h, ?_⟩
  · cases op with
    | processEl i =>
      unfold step
      simp only []
      cases hci : s.containers[i]? with
      | none => exact h1
      | some c =>
        simp only []
        have hmem : c ∈ s.containers := by
          obtain ⟨hlt, rfl⟩ := List.getElem?_eq_some.mp hci
          exact List.getElem_mem hlt
        unfold invB at h1 ⊢
        rw [List.all_eq_true] at h1 ⊢
        intro x hx
        rcases List.mem_or_eq_of_mem_set hx with hx | rfl
        · exact h1 x hx
        · exact processElement_ok _ _ (h1 c hmem)
    | restoreClick i =>
      unfold step
      simp only []
      cases hci : s.containers[i]? with
      | none => exact h1
      | some c =>
        simp only []
        have hmem : c ∈ s.containers := by
          obtain ⟨hlt, rfl⟩ := List.getElem?_eq_some.mp hci
          exact List.getElem_mem hlt
        unfold invB at h1 ⊢
        rw [List.all_eq_true] at h1 ⊢
        intro x hx
        rcases List.mem_or_eq_of_mem_set hx with hx | rfl
        · exact h1 x hx
        · exact restoreElement_ok _ (h1 c hmem)
    | mutations dom added =>
      unfold step handleMutations
      cases hen : s.settings.enabled
      · simp only [hen, Bool.not_false, if_true]
        exact h1
      · simp only [hen, Bool.not_true, Bool.false_eq_true, if_false]
        unfold invB at h1 ⊢
        rw [List.all_append]
        unfold Op.okB at h2
        rw [h1, processAll_ok _ _ h2]
        rfl
    | rescan dom =>
      unfold step
      simp only [rescanAll]
      cases hen : (rescanPhase1 dom s).settings.enabled
      · simp only [Bool.false_eq_true, if_false]
        exact invB_rescanPhase1 dom s h1
      · simp only [if_true]
        unfold invB
        exact processAll_ok _ _ (invB_rescanPhase1 dom s h1)
    | load res lf =>
      exact h1
  · intro dom added
    unfold handleMutations
    cases hen : s.settings.enabled
    · simp only [hen, Bool.not_false, if_true]
      exact List.take_length s.containers
    · simp only [hen, Bool.not_true, Bool.false_eq_true, if_false]
      exact List.take_left s.containers _

/-- C4 witness: the invariant holds after a scan step on an initial
state. -/
theorem markers_invariant_witness : invB (step appEmpty (Op.processEl 0)) = true :=
  (markers_invariant appEmpty (Op.processEl 0) (by decide) (by decide)).1

/-- C6: a full rescan first restores every currently-replaced container
and clears every processed/replaced marker page-wide and resets the
hidden-count to 0 (phase 1); only when suppression is enabled does it
then re-walk the whole document (and restart the observer), and when
suppression is disabled it stops there and tears the mutation watch
down. -/
theorem rescanAll_spec (dom : PageDom) (s : AppState) (h : invB s = true) :
    (∀ c ∈ (rescanPhase1 dom s).containers, c.processed = false ∧ c.replaced = false)
    ∧ (rescanPhase1 dom s).hiddenCount = 0
    ∧ (s.settings.enabled = true →
        rescanAll dom s
          = { rescanPhase1 dom s with
              containers :=
                (processAll (rescanPhase1 dom s).gs (rescanPhase1 dom s).containers).2,
              hiddenCount :=
                (processAll (rescanPhase1 dom s).gs (rescanPhase1 dom s).containers).1.hiddenCount,
              observerOn := true, saveTimer := some 1000 })
    ∧ (s.settings.enabled = false →
        rescanAll dom s
          = { rescanPhase1 dom s with observerOn := false, saveTimer := some 1000 }) := by
  refine ⟨fun c hc => ⟨(rescanPhase1_markers dom s h c hc).1,
    (rescanPhase1_markers dom s h c hc).2.1⟩, rfl, ?_, ?_⟩
  · intro hen
    have hen' : (rescanPhase1 dom s).settings.enabled = true := hen
    simp only [rescanAll]
    rw [if_pos hen']
  · intro hen
    have hen' : ¬ (rescanPhase1 dom s).settings.enabled = true := by
      show ¬ s.settings.enabled = true
      simp [hen]
    simp only [rescanAll]
    rw [if_neg hen']

/-- C6 witness: phase 1 on a state holding one hidden container zeroes
the count, and the disabled-case equation at a concrete state. -/
theorem rescanAll_spec_witness :
    (rescanPhase1 domEmpty appOne).hiddenCount = 0
    ∧ rescanAll domEmpty appOne
        = { rescanPhase1 domEmpty appOne with
            containers :=
              (processAll (rescanPhase1 domEmpty appOne).gs
                (rescanPhase1 domEmpty appOne).containers).2,
            hiddenCount :=
              (processAll (rescanPhase1 domEmpty appOne).gs
                (rescanPhase1 domEmpty appOne).containers).1.hiddenCount,
            observerOn := true, saveTimer := some 1000 } :=
  ⟨(rescanAll_spec domEmpty appOne (by decide)).2.1,
   (rescanAll_spec domEmpty appOne (by decide)).2.2.1 rfl⟩

/-- The `markAsFollowed` never removes cache entries. -/
lemma markAsFollowed_mono (fs : FollowState) (u : String) :
    fs.followedUsersSet ⊆ (markAsFollowed fs u).followedUsersSet := by
  unfold markAsFollowed
  split
  · exact fun x hx => hx
  · exact List.subset_append_left _ _

/-- Folding a cache-monotone step keeps the cache monotone. -/
lemma foldl_followed_mono {α : Type} (f : FollowState → α → FollowState)
    (hf : ∀ a x, a.followedUsersSet ⊆ (f a x).followedUsersSet) :
    ∀ (l : List α) (a : FollowState),
      a.followedUsersSet ⊆ (l.foldl f a).followedUsersSet := by
  intro l
  induction l with
  | nil => intro a; exact fun x hx => hx
  | cons x xs ih =>
    intro a
    rw [List.foldl_cons]
    exact fun y hy => ih (f a x) (hf a x hy)

/-- Signal 1 only adds entries. -/
lemma scanSignal1_mono (dom : PageDom) (onTab : Bool) (fs : FollowState) :
    fs.followedUsersSet ⊆ (scanSignal1 dom onTab fs).followedUsersSet := by
  unfold scanSignal1
  split
  · apply foldl_followed_mono
    intro a tw
    cases extractUsernameL tw
    · exact fun x hx => hx
    · exact markAsFollowed_mono _ _
  · exact fun x hx => hx

/-- Signal 2a only adds entries. -/
lemma scanSignal2a_mono (dom : PageDom) (fs : FollowState) :
    fs.followedUsersSet ⊆ (scanSignal2a dom fs).followedUsersSet := by
  unfold scanSignal2a
  apply foldl_followed_mono
  intro a tid
  cases matchUnfollowTestId tid
  · exact fun x hx => hx
  · exact markAsFollowed_mono _ _

/-- Signal 2b only adds entries. -/
lemma scanSignal2b_mono (dom : PageDom) (fs : FollowState) :
    fs.followedUsersSet ⊆ (scanSignal2b dom fs).followedUsersSet := by
  unfold scanSignal2b
  apply foldl_followed_mono
  intro a btn
  simp only []
  split
  · exact fun x hx => hx
  · cases btn.closestContainer with
    | none => exact fun x hx => hx
    | some cont =>
      simp only []
      cases extractUsernameL cont
      · exact fun x hx => hx
      · exact markAsFollowed_mono _ _

/-- Signal 3 only adds entries. -/
lemma scanSignal3_mono (dom : PageDom) (fs : FollowState) :
    fs.followedUsersSet ⊆ (scanSignal3 dom fs).followedUsersSet := by
  unfold scanSignal3
  cases matchProfileRaw dom.pathname with
  | none => exact fun x hx => hx
  | some raw =>
    simp only []
    split
    · exact markAsFollowed_mono _ _
    · exact fun x hx => hx

/-- The full page scan only adds entries. -/
lemma scanPage_mono (dom : PageDom) (fs : FollowState) (cache : Option Bool) :
    fs.followedUsersSet ⊆ (scanPageForFollowedUsers dom fs cache).1.followedUsersSet := by
  unfold scanPageForFollowedUsers
  intro x hx
  exact scanSignal3_mono dom _ (scanSignal2b_mono dom _ (scanSignal2a_mono dom _
    (scanSignal1_mono dom _ fs hx)))

/-- The `Set.prototype.add` never removes. -/
lemma addIfAbsent_mono (l : List String) (u : String) : l ⊆ addIfAbsent l u := by
  unfold addIfAbsent
  split
  · exact fun x hx => hx
  · exact List.subset_append_left _ _

/-- Folding `Set.prototype.add` never removes. -/
lemma foldl_addIfAbsent_mono :
    ∀ (l a : List String), a ⊆ l.foldl addIfAbsent a := by
  intro l
  induction l with
  | nil => intro a; exact fun x hx => hx
  | cons x xs ih =>
    intro a
    rw [List.foldl_cons]
    exact fun y hy => ih (addIfAbsent a x) (addIfAbsent_mono a x hy)

/-- The followed set a rescan leaves behind is the one the page scan
produced. -/
lemma rescanAll_followed (dom : PageDom) (s : AppState) :
    (rescanAll dom s).followedUsersSet
      = (scanPageForFollowedUsers dom s.fsOf none).1.followedUsersSet := by
  simp only [rescanAll]
  split <;> rfl

/-- C7: within a session the follow cache grows monotonically — each of
`markAsFollowed`, `scanPageForFollowedUsers`, `loadSettings` and
`rescanAll` maps the cached followed set to a superset of itself; and
`markAsFollowed` inserts an absent non-empty identity and (re)schedules
the trailing 2-second debounced persist, while an already-present
identity leaves the state untouched. -/
theorem followedUsers_monotone :
    (∀ (fs : FollowState) (u : String),
        fs.followedUsersSet ⊆ (markAsFollowed fs u).followedUsersSet)
    ∧ (∀ (dom : PageDom) (fs : FollowState) (cache : Option Bool),
        fs.followedUsersSet ⊆ (scanPageForFollowedUsers dom fs cache).1.followedUsersSet)
    ∧ (∀ (res : SyncResult) (lf : List String) (s : AppState),
        s.followedUsersSet ⊆ (loadSettings res lf s).followedUsersSet)
    ∧ (∀ (dom : PageDom) (s : AppState),
        s.followedUsersSet ⊆ (rescanAll dom s).followedUsersSet)
    ∧ (∀ (fs : FollowState) (u : String), u ≠ "" →
        fs.followedUsersSet.contains u = false →
        markAsFollowed fs u
          = { followedUsersSet := fs.followedUsersSet ++ [u],
              followedSaveTimer := some 2000 })
    ∧ (∀ (fs : FollowState) (u : String),
        fs.followedUsersSet.contains u = true → markAsFollowed fs u = fs) := by
  refine ⟨markAsFollowed_mono, scanPage_mono, ?_, ?_, ?_, ?_⟩
  · intro res lf s
    exact foldl_addIfAbsent_mono lf s.followedUsersSet
  · intro dom s
    intro x hx
    rw [rescanAll_followed]
    exact scanPage_mono dom s.fsOf none hx
  · intro fs u hne hcon
    have hmem : u ∉ fs.followedUsersSet := by simpa using hcon
    unfold markAsFollowed
    rw [if_neg (by simp [hne, hmem])]
  · intro fs u hcon
    have hmem : u ∈ fs.followedUsersSet := by simpa using hcon
    unfold markAsFollowed
    rw [if_pos (by simp [hmem])]

/-- C7 witness: inserting a fresh identity appends it and schedules the
2-second persist; re-marking it afterwards changes nothing. -/
theorem followedUsers_monotone_witness :
    markAsFollowed fsEmpty "bob"
      = { followedUsersSet := ["bob"], followedSaveTimer := some 2000 } :=
  followedUsers_monotone.2.2.2.2.1 fsEmpty "bob" (by decide) (by decide)

end BlockBlue
